import Mathlib

/-!
Shallow embedding of the LightTaxes tax-return pipeline
(razaalikarimi/LightTaxes) and proofs about it.

Monetary amounts and rates are modelled as exact rationals (`ℚ`);
Python `round(x, 2)` is modelled as round-half-up to the cent
(`round2`), one of the two tie rules the specification allows.
Python strings are modelled as Lean `String`s; `str.lower()` and
`str.replace(" ", "_")` are modelled character-wise (`py_lower`,
`py_space_to_underscore`), which agrees with Python on the ASCII
statuses that occur here.
-/

namespace LightTaxes

/-! ## Rounding to the cent (model of Python round(x, 2)) -/

/-- Round a rational to the nearest cent, ties going up:
`round2 q = ⌊100 q + 1/2⌋ / 100`.  Uses the computable `Rat.floor`. -/
def round2 (q : ℚ) : ℚ := ((q * 100 + 1/2).floor : ℚ) / 100

theorem round2_eq (q : ℚ) : round2 q = ((⌊q * 100 + 1/2⌋ : ℤ) : ℚ) / 100 := by
  rw [round2, Rat.floor_def', ← Rat.floor_def]

theorem round2_mono : Monotone round2 := by
  intro a b h
  rw [round2_eq, round2_eq]
  have h2 : (⌊a * 100 + 1/2⌋ : ℤ) ≤ ⌊b * 100 + 1/2⌋ := Int.floor_mono (by linarith)
  have h3 : ((⌊a * 100 + 1/2⌋ : ℤ) : ℚ) ≤ ((⌊b * 100 + 1/2⌋ : ℤ) : ℚ) := by exact_mod_cast h2
  linarith

theorem round2_zero : round2 0 = 0 := by
  rw [round2_eq]
  norm_num

theorem round2_nonneg {q : ℚ} (h : 0 ≤ q) : 0 ≤ round2 q := by
  have := round2_mono h
  rw [round2_zero] at this
  exact this

/-- Evaluate `round2` from floor bounds on `100 q + 1/2`. -/
theorem round2_eq_of (q : ℚ) (n : ℤ) (h1 : (n : ℚ) ≤ q * 100 + 1/2)
    (h2 : q * 100 + 1/2 < (n : ℚ) + 1) : round2 q = (n : ℚ) / 100 := by
  rw [round2_eq, Int.floor_eq_iff.mpr ⟨h1, by exact_mod_cast h2⟩]

theorem round2_pos_of (q : ℚ) (h : 1 ≤ q) : 0 < round2 q := by
  have h1 : round2 1 ≤ round2 q := round2_mono h
  have h2 : round2 1 = 1 := by
    have := round2_eq_of 1 100 (by norm_num) (by norm_num)
    rw [this]; norm_num
  rw [h2] at h1
  linarith

/-! ## Python string helpers -/

/-- Model of Python `str.lower()` (character-wise; exact on ASCII). -/
def py_lower (s : String) : String := ⟨s.data.map Char.toLower⟩

/-- Model of Python `str.replace(" ", "_")`: the pattern is a single
character, so the replacement is a character-wise map. -/
def py_space_to_underscore (s : String) : String :=
  ⟨s.data.map (fun c => if c = ' ' then '_' else c)⟩

/-! ## Filing status (src/core/types.py `class FilingStatus(str, Enum)`) -/

inductive FilingStatus where
  | single
  | married_filing_jointly
  | married_filing_separately
  | head_of_household
  | qualifying_widow
deriving DecidableEq

/-- The enum member's string value (the mixed-in `str` content). -/
def FilingStatus.value : FilingStatus → String
  | .single => "single"
  | .married_filing_jointly => "married_filing_jointly"
  | .married_filing_separately => "married_filing_separately"
  | .head_of_household => "head_of_household"
  | .qualifying_widow => "qualifying_widow"

/-- Python `str(member)` for a `class FilingStatus(str, Enum)` member:
`Enum.__str__` is installed by the enum metaclass (the `str` mixin's
`__str__` is replaced), so the result is `"FilingStatus.MEMBER_NAME"`,
not the member value. -/
def FilingStatus.pyStr : FilingStatus → String
  | .single => "FilingStatus.SINGLE"
  | .married_filing_jointly => "FilingStatus.MARRIED_FILING_JOINTLY"
  | .married_filing_separately => "FilingStatus.MARRIED_FILING_SEPARATELY"
  | .head_of_household => "FilingStatus.HEAD_OF_HOUSEHOLD"
  | .qualifying_widow => "FilingStatus.QUALIFYING_WIDOW"

/-- The adjustment helpers take `Union[FilingStatus, str]`. -/
inductive StatusArg where
  | enum (s : FilingStatus)
  | raw (s : String)

/-- Python `str(filing_status)` on a `Union[FilingStatus, str]` value. -/
def StatusArg.pyStr : StatusArg → String
  | .enum s => s.pyStr
  | .raw s => s

/-- Python `status == FilingStatus.MARRIED_FILING_JOINTLY` where
`status = str(filing_status)`: the right-hand side is a `str` subclass
instance whose character content is the member value
`"married_filing_jointly"`, so this is a plain string comparison. -/
def statusEqMFJ (a : StatusArg) : Bool :=
  a.pyStr == FilingStatus.value .married_filing_jointly

/-! ## Tax brackets (src/tools/tax_table.py TAX_BRACKETS_2024) -/

/-- One row `(lower inclusive, upper exclusive, marginal rate,
cumulative tax at lower)`; `upper = none` models `float('inf')`. -/
structure Bracket where
  lower : ℚ
  upper : Option ℚ
  rate : ℚ
  base : ℚ
deriving DecidableEq

def singleBrackets : List Bracket :=
  [⟨0, some 11600, 0.10, 0⟩,
   ⟨11600, some 47150, 0.12, 1160⟩,
   ⟨47150, some 100525, 0.22, 5426⟩,
   ⟨100525, some 191950, 0.24, 17168.50⟩,
   ⟨191950, some 243725, 0.32, 39110.50⟩,
   ⟨243725, some 609350, 0.35, 55678.50⟩,
   ⟨609350, none, 0.37, 183647.25⟩]

def mfjBrackets : List Bracket :=
  [⟨0, some 23200, 0.10, 0⟩,
   ⟨23200, some 94300, 0.12, 2320⟩,
   ⟨94300, some 201050, 0.22, 10852⟩,
   ⟨201050, some 383900, 0.24, 34337⟩,
   ⟨383900, some 487450, 0.32, 78221⟩,
   ⟨487450, some 731200, 0.35, 111357⟩,
   ⟨731200, none, 0.37, 196669.50⟩]

def mfsBrackets : List Bracket :=
  [⟨0, some 11600, 0.10, 0⟩,
   ⟨11600, some 47150, 0.12, 1160⟩,
   ⟨47150, some 100525, 0.22, 5426⟩,
   ⟨100525, some 191950, 0.24, 17168.50⟩,
   ⟨191950, some 243725, 0.32, 39110.50⟩,
   ⟨243725, some 365600, 0.35, 55678.50⟩,
   ⟨365600, none, 0.37, 98334.75⟩]

def hohBrackets : List Bracket :=
  [⟨0, some 16550, 0.10, 0⟩,
   ⟨16550, some 63100, 0.12, 1655⟩,
   ⟨63100, some 100500, 0.22, 7241⟩,
   ⟨100500, some 191950, 0.24, 15469⟩,
   ⟨191950, some 243700, 0.32, 37417⟩,
   ⟨243700, some 609350, 0.35, 53977⟩,
   ⟨609350, none, 0.37, 181954.50⟩]

def qwBrackets : List Bracket :=
  [⟨0, some 23200, 0.10, 0⟩,
   ⟨23200, some 94300, 0.12, 2320⟩,
   ⟨94300, some 201050, 0.22, 10852⟩,
   ⟨201050, some 383900, 0.24, 34337⟩,
   ⟨383900, some 487450, 0.32, 78221⟩,
   ⟨487450, some 731200, 0.35, 111357⟩,
   ⟨731200, none, 0.37, 196669.50⟩]

/-- The module-level dict `TAX_BRACKETS_2024`, keyed by status string. -/
def TAX_BRACKETS_2024 : List (String × List Bracket) :=
  [("single", singleBrackets),
   ("married_filing_jointly", mfjBrackets),
   ("married_filing_separately", mfsBrackets),
   ("head_of_household", hohBrackets),
   ("qualifying_widow", qwBrackets)]

/-- The bracket list the dict associates with each enum value. -/
def bracketsOf : FilingStatus → List Bracket
  | .single => singleBrackets
  | .married_filing_jointly => mfjBrackets
  | .married_filing_separately => mfsBrackets
  | .head_of_household => hohBrackets
  | .qualifying_widow => qwBrackets

/-- Python `taxable_income < max_income` where `max_income` may be
`float('inf')` (modelled as `none`). -/
def belowUpper (x : ℚ) : Option ℚ → Prop
  | some u => x < u
  | none => True

instance instDecidableBelowUpper (x : ℚ) : (o : Option ℚ) → Decidable (belowUpper x o)
  | some u => inferInstanceAs (Decidable (x < u))
  | none => inferInstanceAs (Decidable True)

@[simp] theorem belowUpper_some (x u : ℚ) : belowUpper x (some u) ↔ x < u := Iff.rfl

@[simp] theorem belowUpper_none (x : ℚ) : belowUpper x none := trivial

/-- `min_income <= taxable_income < max_income`. -/
def inBracket (x : ℚ) (b : Bracket) : Prop := b.lower ≤ x ∧ belowUpper x b.upper

instance (x : ℚ) (b : Bracket) : Decidable (inBracket x b) :=
  inferInstanceAs (Decidable (_ ∧ _))

/-- The `for`-loop of `calculate_tax`: first bracket whose half-open
interval contains the income. -/
def findBracket (x : ℚ) : List Bracket → Option Bracket
  | [] => none
  | b :: rest => if inBracket x b then some b else findBracket x rest

/-- `normalize` step of `calculate_tax`:
`filing_status.lower().replace(" ", "_")`. -/
def normalize_status (status : String) : String :=
  py_space_to_underscore (py_lower status)

/-- src/tools/tax_table.py `calculate_tax`.  `none` models the two
`raise ValueError` paths (invalid filing status; no bracket found). -/
def calculate_tax (taxable_income : ℚ) (filing_status : String) : Option ℚ :=
  if taxable_income ≤ 0 then some 0
  else
    (TAX_BRACKETS_2024.lookup (normalize_status filing_status)).bind fun brackets =>
      (findBracket taxable_income brackets).map fun b =>
        round2 (b.base + (taxable_income - b.lower) * b.rate)

theorem lookup_normalize_value (s : FilingStatus) :
    TAX_BRACKETS_2024.lookup (normalize_status s.value) = some (bracketsOf s) := by
  cases s <;> rfl

/-! ## Well-formed bracket chains

`WF lo b0 L` says `L` is an ordered, gapless chain of brackets starting
at lower bound `lo` with cumulative tax `b0` there, each cumulative
constant consistent with the previous bracket's rate, the last bracket
unbounded.  Every 2024 table satisfies it. -/

inductive WF : ℚ → ℚ → List Bracket → Prop where
  | last (lo b0 r : ℚ) (hr : 0 ≤ r) : WF lo b0 [⟨lo, none, r, b0⟩]
  | cons (lo b0 u r b1 : ℚ) (rest : List Bracket) (hu : lo < u) (hr : 0 ≤ r)
      (h : WF u b1 rest) (hb : b1 = b0 + (u - lo) * r) :
      WF lo b0 (⟨lo, some u, r, b0⟩ :: rest)

theorem WF.lower_le {lo b0 : ℚ} {L : List Bracket} (h : WF lo b0 L) :
    ∀ b ∈ L, lo ≤ b.lower := by
  induction h with
  | last lo b0 r hr =>
    intro b hb
    simp only [List.mem_singleton] at hb
    simp [hb]
  | cons lo b0 u r b1 rest hu hr h hb ih =>
    intro b hbmem
    rcases List.mem_cons.mp hbmem with h1 | h1
    · simp [h1]
    · exact le_of_lt (lt_of_lt_of_le hu (ih b h1))

theorem WF.find_mem {lo b0 : ℚ} {L : List Bracket} (h : WF lo b0 L) {x : ℚ}
    (hx : lo ≤ x) : ∃ b, findBracket x L = some b ∧ b ∈ L ∧ inBracket x b := by
  induction h with
  | last lo b0 r hr =>
    refine ⟨⟨lo, none, r, b0⟩, ?_, by simp, ⟨hx, trivial⟩⟩
    simp [findBracket, inBracket, hx]
  | cons lo b0 u r b1 rest hu hr h hb ih =>
    by_cases hxu : x < u
    · refine ⟨⟨lo, some u, r, b0⟩, ?_, by simp, ⟨hx, hxu⟩⟩
      simp [findBracket, inBracket, hx, hxu]
    · obtain ⟨b, hfind, hmem, hin⟩ := ih (le_of_not_lt hxu)
      refine ⟨b, ?_, List.mem_cons_of_mem _ hmem, hin⟩
      simp only [findBracket]
      rw [if_neg]
      · exact hfind
      · intro hcontra
        exact hxu hcontra.2

theorem WF.unique {lo b0 : ℚ} {L : List Bracket} (h : WF lo b0 L) {x : ℚ}
    {b b' : Bracket} (hb : b ∈ L) (hb' : b' ∈ L)
    (h1 : inBracket x b) (h2 : inBracket x b') : b = b' := by
  induction h with
  | last lo b0 r hr =>
    simp only [List.mem_singleton] at hb hb'
    rw [hb, hb']
  | cons lo b0 u r b1 rest hu hr h hbeq ih =>
    rcases List.mem_cons.mp hb with hc | hc <;> rcases List.mem_cons.mp hb' with hc' | hc'
    · rw [hc, hc']
    · exfalso
      have hxu : x < u := by rw [hc] at h1; exact h1.2
      have hlow : u ≤ b'.lower := h.lower_le b' hc'
      exact absurd (lt_of_le_of_lt (le_trans hlow h2.1) hxu) (lt_irrefl u)
    · exfalso
      have hxu : x < u := by rw [hc'] at h2; exact h2.2
      have hlow : u ≤ b.lower := h.lower_le b hc
      exact absurd (lt_of_le_of_lt (le_trans hlow h1.1) hxu) (lt_irrefl u)
    · exact ih hc hc'

/-- The (pre-rounding) tax the loop computes, as a total function. -/
def taxValue (x : ℚ) (L : List Bracket) : ℚ :=
  ((findBracket x L).map fun b => b.base + (x - b.lower) * b.rate).getD 0

theorem taxValue_cons_of_lt {x lo b0 u r : ℚ} {rest : List Bracket}
    (hx : lo ≤ x) (hxu : x < u) :
    taxValue x (⟨lo, some u, r, b0⟩ :: rest) = b0 + (x - lo) * r := by
  simp [taxValue, findBracket, inBracket, hx, hxu]

theorem taxValue_cons_of_ge {x lo b0 u r : ℚ} {rest : List Bracket}
    (hxu : ¬ x < u) :
    taxValue x (⟨lo, some u, r, b0⟩ :: rest) = taxValue x rest := by
  simp only [taxValue, findBracket]
  rw [if_neg]
  intro hcontra
  exact hxu hcontra.2

theorem WF.taxValue_ge {lo b0 : ℚ} {L : List Bracket} (h : WF lo b0 L) {x : ℚ}
    (hx : lo ≤ x) : b0 ≤ taxValue x L := by
  induction h with
  | last lo b0 r hr =>
    have : taxValue x [⟨lo, none, r, b0⟩] = b0 + (x - lo) * r := by
      simp [taxValue, findBracket, inBracket, hx]
    rw [this]
    nlinarith [mul_nonneg (sub_nonneg.mpr hx) hr]
  | cons lo b0 u r b1 rest hu hr h hb ih =>
    by_cases hxu : x < u
    · rw [taxValue_cons_of_lt hx hxu]
      nlinarith [mul_nonneg (sub_nonneg.mpr hx) hr]
    · rw [taxValue_cons_of_ge hxu]
      have h1 : b1 ≤ taxValue x rest := ih (le_of_not_lt hxu)
      have h2 : b0 ≤ b1 := by
        rw [hb]
        nlinarith [mul_nonneg (sub_nonneg.mpr (le_of_lt hu)) hr]
      linarith

theorem WF.taxValue_mono {lo b0 : ℚ} {L : List Bracket} (h : WF lo b0 L)
    {x y : ℚ} (hx : lo ≤ x) (hxy : x ≤ y) : taxValue x L ≤ taxValue y L := by
  induction h with
  | last lo b0 r hr =>
    have hy : lo ≤ y := le_trans hx hxy
    have e1 : taxValue x [⟨lo, none, r, b0⟩] = b0 + (x - lo) * r := by
      simp [taxValue, findBracket, inBracket, hx]
    have e2 : taxValue y [⟨lo, none, r, b0⟩] = b0 + (y - lo) * r := by
      simp [taxValue, findBracket, inBracket, hy]
    rw [e1, e2]
    nlinarith [mul_nonneg (sub_nonneg.mpr hxy) hr]
  | cons lo b0 u r b1 rest hu hr h hb ih =>
    by_cases hyu : y < u
    · have hxu : x < u := lt_of_le_of_lt hxy hyu
      rw [taxValue_cons_of_lt hx hxu, taxValue_cons_of_lt (le_trans hx hxy) hyu]
      nlinarith [mul_nonneg (sub_nonneg.mpr hxy) hr]
    · by_cases hxu : x < u
      · rw [taxValue_cons_of_lt hx hxu, taxValue_cons_of_ge hyu]
        have h1 : b1 ≤ taxValue y rest := h.taxValue_ge (le_of_not_lt hyu)
        have h2 : b0 + (x - lo) * r ≤ b1 := by
          rw [hb]
          nlinarith [mul_nonneg (sub_nonneg.mpr (le_of_lt (lt_of_le_of_lt hx hxu))) hr,
            mul_le_mul_of_nonneg_right (sub_le_sub_right (le_of_lt hxu) lo) hr]
        linarith
      · rw [taxValue_cons_of_ge hxu, taxValue_cons_of_ge hyu]
        exact ih (le_of_not_lt hxu)

theorem WF_singleBrackets : WF 0 0 singleBrackets := by
  rw [singleBrackets]
  refine WF.cons _ _ _ _ 1160 _ (by norm_num) (by norm_num) ?_ (by norm_num)
  refine WF.cons _ _ _ _ 5426 _ (by norm_num) (by norm_num) ?_ (by norm_num)
  refine WF.cons _ _ _ _ 17168.50 _ (by norm_num) (by norm_num) ?_ (by norm_num)
  refine WF.cons _ _ _ _ 39110.50 _ (by norm_num) (by norm_num) ?_ (by norm_num)
  refine WF.cons _ _ _ _ 55678.50 _ (by norm_num) (by norm_num) ?_ (by norm_num)
  refine WF.cons _ _ _ _ 183647.25 _ (by norm_num) (by norm_num) ?_ (by norm_num)
  exact WF.last _ _ _ (by norm_num)

theorem WF_mfjBrackets : WF 0 0 mfjBrackets := by
  rw [mfjBrackets]
  refine WF.cons _ _ _ _ 2320 _ (by norm_num) (by norm_num) ?_ (by norm_num)
  refine WF.cons _ _ _ _ 10852 _ (by norm_num) (by norm_num) ?_ (by norm_num)
  refine WF.cons _ _ _ _ 34337 _ (by norm_num) (by norm_num) ?_ (by norm_num)
  refine WF.cons _ _ _ _ 78221 _ (by norm_num) (by norm_num) ?_ (by norm_num)
  refine WF.cons _ _ _ _ 111357 _ (by norm_num) (by norm_num) ?_ (by norm_num)
  refine WF.cons _ _ _ _ 196669.50 _ (by norm_num) (by norm_num) ?_ (by norm_num)
  exact WF.last _ _ _ (by norm_num)

theorem WF_mfsBrackets : WF 0 0 mfsBrackets := by
  rw [mfsBrackets]
  refine WF.cons _ _ _ _ 1160 _ (by norm_num) (by norm_num) ?_ (by norm_num)
  refine WF.cons _ _ _ _ 5426 _ (by norm_num) (by norm_num) ?_ (by norm_num)
  refine WF.cons _ _ _ _ 17168.50 _ (by norm_num) (by norm_num) ?_ (by norm_num)
  refine WF.cons _ _ _ _ 39110.50 _ (by norm_num) (by norm_num) ?_ (by norm_num)
  refine WF.cons _ _ _ _ 55678.50 _ (by norm_num) (by norm_num) ?_ (by norm_num)
  refine WF.cons _ _ _ _ 98334.75 _ (by norm_num) (by norm_num) ?_ (by norm_num)
  exact WF.last _ _ _ (by norm_num)

theorem WF_hohBrackets : WF 0 0 hohBrackets := by
  rw [hohBrackets]
  refine WF.cons _ _ _ _ 1655 _ (by norm_num) (by norm_num) ?_ (by norm_num)
  refine WF.cons _ _ _ _ 7241 _ (by norm_num) (by norm_num) ?_ (by norm_num)
  refine WF.cons _ _ _ _ 15469 _ (by norm_num) (by norm_num) ?_ (by norm_num)
  refine WF.cons _ _ _ _ 37417 _ (by norm_num) (by norm_num) ?_ (by norm_num)
  refine WF.cons _ _ _ _ 53977 _ (by norm_num) (by norm_num) ?_ (by norm_num)
  refine WF.cons _ _ _ _ 181954.50 _ (by norm_num) (by norm_num) ?_ (by norm_num)
  exact WF.last _ _ _ (by norm_num)

theorem WF_qwBrackets : WF 0 0 qwBrackets := by
  rw [qwBrackets]
  refine WF.cons _ _ _ _ 2320 _ (by norm_num) (by norm_num) ?_ (by norm_num)
  refine WF.cons _ _ _ _ 10852 _ (by norm_num) (by norm_num) ?_ (by norm_num)
  refine WF.cons _ _ _ _ 34337 _ (by norm_num) (by norm_num) ?_ (by norm_num)
  refine WF.cons _ _ _ _ 78221 _ (by norm_num) (by norm_num) ?_ (by norm_num)
  refine WF.cons _ _ _ _ 111357 _ (by norm_num) (by norm_num) ?_ (by norm_num)
  refine WF.cons _ _ _ _ 196669.50 _ (by norm_num) (by norm_num) ?_ (by norm_num)
  exact WF.last _ _ _ (by norm_num)

theorem WF_bracketsOf (s : FilingStatus) : WF 0 0 (bracketsOf s) := by
  cases s
  · exact WF_singleBrackets
  · exact WF_mfjBrackets
  · exact WF_mfsBrackets
  · exact WF_hohBrackets
  · exact WF_qwBrackets

/-- For positive income, `calculate_tax` on an enum value rounds the
chain value of that status's bracket list. -/
theorem calculate_tax_pos (x : ℚ) (s : FilingStatus) (hx : 0 < x) :
    calculate_tax x s.value = some (round2 (taxValue x (bracketsOf s))) := by
  obtain ⟨b, hfind, hmem, hin⟩ := (WF_bracketsOf s).find_mem (le_of_lt hx)
  have htv : taxValue x (bracketsOf s) = b.base + (x - b.lower) * b.rate := by
    unfold taxValue
    rw [hfind]
    rfl
  rw [calculate_tax, if_neg (not_le.mpr hx), lookup_normalize_value, htv]
  show Option.map _ (findBracket x (bracketsOf s)) = _
  rw [hfind]
  rfl

/-- Every `calculate_tax` lookup with an enum value succeeds. -/
theorem calculate_tax_total (x : ℚ) (s : FilingStatus) :
    ∃ t, calculate_tax x s.value = some t := by
  by_cases hx : x ≤ 0
  · exact ⟨0, by rw [calculate_tax, if_pos hx]⟩
  · exact ⟨_, calculate_tax_pos x s (lt_of_not_le hx)⟩

theorem calculate_tax_nonneg {x : ℚ} {s : FilingStatus} {t : ℚ}
    (h : calculate_tax x s.value = some t) : 0 ≤ t := by
  by_cases hx : x ≤ 0
  · rw [calculate_tax, if_pos hx] at h
    exact le_of_eq (Option.some.inj h)
  · push_neg at hx
    rw [calculate_tax_pos x s hx] at h
    have h0 : (0 : ℚ) ≤ taxValue x (bracketsOf s) :=
      (WF_bracketsOf s).taxValue_ge (le_of_lt hx)
    rw [← Option.some.inj h]
    exact round2_nonneg h0

/-- C1: for every filing status in the five-value enumeration and every
taxable income, `calculate_tax` returns 0 when the income is at most 0,
and otherwise returns `cumulativeTaxAtLower + (income - lower) * rate`
for the unique bracket whose half-open interval `[lower, upper)`
contains the income, rounded to the nearest cent. -/
theorem c1_calculate_tax_bracket_formula (x : ℚ) (s : FilingStatus) :
    (x ≤ 0 → calculate_tax x s.value = some 0) ∧
    (0 < x → ∃ b, b ∈ bracketsOf s ∧ inBracket x b ∧
      (∀ b2, b2 ∈ bracketsOf s → inBracket x b2 → b2 = b) ∧
      calculate_tax x s.value = some (round2 (b.base + (x - b.lower) * b.rate))) := by
  constructor
  · intro hx
    rw [calculate_tax, if_pos hx]
  · intro hx
    obtain ⟨b, hfind, hmem, hin⟩ := (WF_bracketsOf s).find_mem (le_of_lt hx)
    refine ⟨b, hmem, hin, ?_, ?_⟩
    · intro b2 hb2 hin2
      exact (WF_bracketsOf s).unique hb2 hmem hin2 hin
    · have htv : taxValue x (bracketsOf s) = b.base + (x - b.lower) * b.rate := by
        unfold taxValue
        rw [hfind]
        rfl
      rw [calculate_tax_pos x s hx, htv]

/-- Witness for C1 at a concrete input (`taxableIncome = -1`). -/
theorem c1_calculate_tax_bracket_formula_witness :
    calculate_tax (-1) (FilingStatus.value FilingStatus.single) = some 0 :=
  (c1_calculate_tax_bracket_formula (-1) FilingStatus.single).1 (by norm_num)

/-- Concrete evaluation: tax on 10000 for a single filer. -/
theorem calculate_tax_single_10000 :
    calculate_tax 10000 (FilingStatus.value FilingStatus.single) = some 1000 := by
  rw [calculate_tax_pos 10000 FilingStatus.single (by norm_num)]
  have h1 : taxValue 10000 (bracketsOf FilingStatus.single) = 1000 := by
    norm_num [taxValue, bracketsOf, singleBrackets, findBracket, inBracket]
  rw [h1, round2_eq_of 1000 100000 (by norm_num) (by norm_num)]
  norm_num

/-- Concrete evaluation: tax on 50000 for a single filer. -/
theorem calculate_tax_single_50000 :
    calculate_tax 50000 (FilingStatus.value FilingStatus.single) = some 6053 := by
  rw [calculate_tax_pos 50000 FilingStatus.single (by norm_num)]
  have h1 : taxValue 50000 (bracketsOf FilingStatus.single) = 6053 := by
    norm_num [taxValue, bracketsOf, singleBrackets, findBracket, inBracket]
  rw [h1, round2_eq_of 6053 605300 (by norm_num) (by norm_num)]
  norm_num

/-- C9: for a fixed filing status the computed tax is non-decreasing in
taxable income. -/
theorem c9_calculate_tax_monotone (s : FilingStatus) (a b : ℚ) (hab : a ≤ b)
    (ta tb : ℚ) (ha : calculate_tax a s.value = some ta)
    (hb : calculate_tax b s.value = some tb) : ta ≤ tb := by
  by_cases ha0 : a ≤ 0
  · rw [calculate_tax, if_pos ha0] at ha
    rw [← Option.some.inj ha]
    exact calculate_tax_nonneg hb
  · push_neg at ha0
    have hb0 : 0 < b := lt_of_lt_of_le ha0 hab
    rw [calculate_tax_pos a s ha0] at ha
    rw [calculate_tax_pos b s hb0] at hb
    rw [← Option.some.inj ha, ← Option.some.inj hb]
    exact round2_mono ((WF_bracketsOf s).taxValue_mono (le_of_lt ha0) hab)

/-- Witness for C9 at concrete incomes 10000 and 50000 (single). -/
theorem c9_calculate_tax_monotone_witness :
    calculate_tax 10000 (FilingStatus.value FilingStatus.single) = some 1000 ∧
    calculate_tax 50000 (FilingStatus.value FilingStatus.single) = some 6053 ∧
    (1000 : ℚ) ≤ 6053 :=
  ⟨calculate_tax_single_10000, calculate_tax_single_50000,
    c9_calculate_tax_monotone FilingStatus.single 10000 50000 (by norm_num) 1000 6053
      calculate_tax_single_10000 calculate_tax_single_50000⟩

/-! ## Standard deduction (src/tools/standard_deduction.py) -/

/-- Module-level dict `STANDARD_DEDUCTION_2024`. -/
def STANDARD_DEDUCTION_2024 : List (String × ℚ) :=
  [("single", 14600),
   ("married_filing_jointly", 29200),
   ("married_filing_separately", 14600),
   ("head_of_household", 21900),
   ("qualifying_widow", 29200)]

/-- Module-level dict `ADDITIONAL_DEDUCTION_2024`. -/
def ADDITIONAL_DEDUCTION_2024 : List (String × ℚ) :=
  [("single", 1950),
   ("married_filing_jointly", 1550),
   ("married_filing_separately", 1550),
   ("head_of_household", 1950),
   ("qualifying_widow", 1550)]

/-- Python `taxpayer_age and taxpayer_age >= 65`: truthiness (not `None`,
not 0) and the age test. -/
def age_ge_65 (age : Option ℤ) : Bool :=
  match age with
  | some n => !(n == 0) && decide (65 ≤ n)
  | none => false

/-- The accumulation `deduction += additional` of `get_standard_deduction`,
written as a sum of guarded increments. -/
def stdDedAmount (base additional : ℚ) (joint : Bool) (taxpayer_age : Option ℤ)
    (taxpayer_blind : Bool) (spouse_age : Option ℤ) (spouse_blind : Bool) : ℚ :=
  base + (if age_ge_65 taxpayer_age then additional else 0) +
    (if taxpayer_blind then additional else 0) +
    (if joint then
      (if age_ge_65 spouse_age then additional else 0) +
        (if spouse_blind then additional else 0)
    else 0)

/-- src/tools/standard_deduction.py `get_standard_deduction`; `none`
models the `raise ValueError` for a status outside the dict. -/
def get_standard_deduction (filing_status : String) (taxpayer_age : Option ℤ)
    (taxpayer_blind : Bool) (spouse_age : Option ℤ) (spouse_blind : Bool) : Option ℚ :=
  let status := normalize_status filing_status
  (STANDARD_DEDUCTION_2024.lookup status).bind fun base =>
    (ADDITIONAL_DEDUCTION_2024.lookup status).map fun additional =>
      stdDedAmount base additional
        (status == "married_filing_jointly" || status == "qualifying_widow")
        taxpayer_age taxpayer_blind spouse_age spouse_blind

def baseDeductionOf : FilingStatus → ℚ
  | .single => 14600
  | .married_filing_jointly => 29200
  | .married_filing_separately => 14600
  | .head_of_household => 21900
  | .qualifying_widow => 29200

def additionalDeductionOf : FilingStatus → ℚ
  | .single => 1950
  | .married_filing_jointly => 1550
  | .married_filing_separately => 1550
  | .head_of_household => 1950
  | .qualifying_widow => 1550

/-- `status in ["married_filing_jointly", "qualifying_widow"]`. -/
def spouseEligible (s : FilingStatus) : Bool :=
  decide (s = FilingStatus.married_filing_jointly) ||
    decide (s = FilingStatus.qualifying_widow)

/-- On every enum value the lookups succeed and give the table entries. -/
theorem get_standard_deduction_value (s : FilingStatus) (ta : Option ℤ) (tb : Bool)
    (sa : Option ℤ) (sb : Bool) :
    get_standard_deduction s.value ta tb sa sb =
      some (stdDedAmount (baseDeductionOf s) (additionalDeductionOf s)
        (spouseEligible s) ta tb sa sb) := by
  cases s <;> rfl

theorem ite_increment_le {c c2 : Prop} [Decidable c] [Decidable c2]
    (h : c → c2) {a : ℚ} (ha : 0 ≤ a) :
    (if c then a else 0) ≤ (if c2 then a else 0) := by
  by_cases hc : c
  · rw [if_pos hc, if_pos (h hc)]
  · rw [if_neg hc]
    by_cases hc2 : c2
    · rw [if_pos hc2]; exact ha
    · rw [if_neg hc2]

theorem additionalDeductionOf_nonneg (s : FilingStatus) : 0 ≤ additionalDeductionOf s := by
  cases s <;> norm_num [additionalDeductionOf]

/-- C8: `get_standard_deduction` is monotonically non-decreasing as each
of the four qualifying conditions (taxpayer 65+, taxpayer blind,
spouse 65+, spouse blind) is added, and for every status other than
married-filing-jointly and qualifying-widow the result is independent of
the spouse arguments. -/
theorem c8_standard_deduction_monotone_and_spouse_independent
    (s : FilingStatus) (ta ta2 : Option ℤ) (tb tb2 : Bool)
    (sa sa2 : Option ℤ) (sb sb2 : Bool)
    (h1 : age_ge_65 ta = true → age_ge_65 ta2 = true)
    (h2 : tb = true → tb2 = true)
    (h3 : age_ge_65 sa = true → age_ge_65 sa2 = true)
    (h4 : sb = true → sb2 = true)
    (d d2 : ℚ)
    (hd : get_standard_deduction s.value ta tb sa sb = some d)
    (hd2 : get_standard_deduction s.value ta2 tb2 sa2 sb2 = some d2) :
    d ≤ d2 ∧
    (s ≠ FilingStatus.married_filing_jointly → s ≠ FilingStatus.qualifying_widow →
      ∀ sa3 sb3, get_standard_deduction s.value ta tb sa3 sb3 = some d) := by
  rw [get_standard_deduction_value] at hd hd2
  have ha : 0 ≤ additionalDeductionOf s := additionalDeductionOf_nonneg s
  constructor
  · rw [← Option.some.inj hd, ← Option.some.inj hd2]
    unfold stdDedAmount
    have t1 := ite_increment_le h1 ha
    have t2 := ite_increment_le h2 ha
    have t3 := ite_increment_le h3 ha
    have t4 := ite_increment_le h4 ha
    cases spouseEligible s
    · simp only [Bool.false_eq_true, if_false]
      linarith
    · simp only [if_true]
      linarith
  · intro hmfj hqw sa3 sb3
    have hsp : spouseEligible s = false := by
      cases s
      · rfl
      · exact absurd rfl hmfj
      · rfl
      · rfl
      · exact absurd rfl hqw
    rw [get_standard_deduction_value, ← Option.some.inj hd]
    unfold stdDedAmount
    rw [hsp]
    simp only [Bool.false_eq_true, if_false]

/-- Witness for C8 at concrete inputs (single filer, adding the
taxpayer-65+ and taxpayer-blind conditions). -/
theorem c8_standard_deduction_witness :
    get_standard_deduction (FilingStatus.value FilingStatus.single)
        none false none false = some 14600 ∧
    get_standard_deduction (FilingStatus.value FilingStatus.single)
        (some 70) true none false = some 18500 ∧
    (14600 : ℚ) ≤ 18500 := by
  have e1 : get_standard_deduction (FilingStatus.value FilingStatus.single)
      none false none false = some 14600 := by
    rw [get_standard_deduction_value]
    norm_num [stdDedAmount, age_ge_65, baseDeductionOf, additionalDeductionOf, spouseEligible]
  have e2 : get_standard_deduction (FilingStatus.value FilingStatus.single)
      (some 70) true none false = some 18500 := by
    rw [get_standard_deduction_value]
    norm_num [stdDedAmount, age_ge_65, baseDeductionOf, additionalDeductionOf, spouseEligible]
  refine ⟨e1, e2, ?_⟩
  exact (c8_standard_deduction_monotone_and_spouse_independent FilingStatus.single
    none (some 70) false true none none false false
    (by intro h; rfl) (by intro h; rfl) (by intro h; exact h) (by intro h; exact h)
    14600 18500 e1 e2).1

/-! ## Adjustments (src/tools/adjustments.py)

The three helpers compare `str(filing_status) == FilingStatus.MARRIED_FILING_JOINTLY`.
When the caller passes the enum member (as `main.py` always does),
`str(member)` is `"FilingStatus.MARRIED_FILING_JOINTLY"` while the member
compares as its value `"married_filing_jointly"`, so the comparison is
`False` for every enum argument; it is `True` only for the plain string
`"married_filing_jointly"`. -/

theorem statusEqMFJ_enum_false (s : FilingStatus) :
    statusEqMFJ (StatusArg.enum s) = false := by
  cases s <;> rfl

theorem statusEqMFJ_raw_value :
    statusEqMFJ (StatusArg.raw "married_filing_jointly") = true := rfl

/-- src/tools/adjustments.py `calculate_student_loan_interest`. -/
def calculate_student_loan_interest (interest_paid magi : ℚ)
    (filing_status : StatusArg) : ℚ :=
  let max_deduction : ℚ := 2500
  let deduction := min interest_paid max_deduction
  let start_phase : ℚ := if statusEqMFJ filing_status then 165000 else 80000
  let end_phase : ℚ := if statusEqMFJ filing_status then 195000 else 95000
  if magi ≤ start_phase then deduction
  else if end_phase ≤ magi then 0
  else round2 (deduction - deduction * ((magi - start_phase) / (end_phase - start_phase)))

/-- src/tools/adjustments.py `calculate_excess_business_loss`
(argument is the loss magnitude, positive for a loss). -/
def calculate_excess_business_loss (net_business_loss : ℚ)
    (filing_status : StatusArg) : ℚ :=
  if net_business_loss ≤ 0 then 0
  else
    let threshold : ℚ := if statusEqMFJ filing_status then 610000 else 305000
    if threshold < net_business_loss then net_business_loss - threshold
    else 0

/-- main.py lines 140-145: the excess-business-loss add-back the
orchestrator adds to `additional_income` for a given Schedule C net
result (the enum member is passed through). -/
def ebl_addback (net_biz : ℚ) (s : FilingStatus) : ℚ :=
  if net_biz < 0 then
    let ebl := calculate_excess_business_loss |net_biz| (StatusArg.enum s)
    if 0 < ebl then ebl else 0
  else 0

/-- C3 (code bug): on the single-status scenario the function matches the
claim (1250 at MAGI 87500), but with the `married_filing_jointly` enum
member (as the pipeline passes it) the [165000, 195000] window is NOT
used: the `str(enum) ==` comparison is always false, so MAGI 180000 falls
above the single window's end and the deduction is 0, contradicting the
function's own docstring and its `__main__` expected output (1250). -/
theorem c3_student_loan_interest_eval :
    calculate_student_loan_interest 3000 87500 (StatusArg.enum FilingStatus.single) = 1250 ∧
    calculate_student_loan_interest 3000 180000
      (StatusArg.enum FilingStatus.married_filing_jointly) = 0 ∧
    calculate_student_loan_interest 3000 180000
      (StatusArg.raw "married_filing_jointly") = 1250 := by
  refine ⟨?_, ?_, ?_⟩
  · unfold calculate_student_loan_interest
    rw [statusEqMFJ_enum_false]
    norm_num
    rw [round2_eq_of 1250 125000 (by norm_num) (by norm_num)]
    norm_num
  · unfold calculate_student_loan_interest
    rw [statusEqMFJ_enum_false]
    norm_num
  · unfold calculate_student_loan_interest
    rw [statusEqMFJ_raw_value]
    norm_num
    rw [round2_eq_of 1250 125000 (by norm_num) (by norm_num)]
    norm_num

/-- C4 (code bug): a 400000 business loss yields add-back 95000 under
single status as claimed, but ALSO 95000 under the
`married_filing_jointly` enum member (the pipeline's argument), because
the always-false `str(enum) ==` comparison keeps the 305000 threshold;
the claim, the function's docstring (610000 for MFJ) and its `__main__`
expected output say 0.  A non-negative net result yields 0. -/
theorem c4_excess_business_loss_eval :
    ebl_addback (-400000) FilingStatus.single = 95000 ∧
    ebl_addback (-400000) FilingStatus.married_filing_jointly = 95000 ∧
    ebl_addback 100 FilingStatus.single = 0 ∧
    ebl_addback 0 FilingStatus.married_filing_jointly = 0 ∧
    calculate_excess_business_loss 400000 (StatusArg.raw "married_filing_jointly") = 0 := by
  refine ⟨?_, ?_, ?_, ?_, ?_⟩
  · unfold ebl_addback calculate_excess_business_loss
    rw [statusEqMFJ_enum_false]
    norm_num
  · unfold ebl_addback calculate_excess_business_loss
    rw [statusEqMFJ_enum_false]
    norm_num
  · unfold ebl_addback
    norm_num
  · unfold ebl_addback
    norm_num
  · unfold calculate_excess_business_loss
    rw [statusEqMFJ_raw_value]
    norm_num

/-! ## Input parsing (main.py `_parse_inputs`) -/

/-- The `filing_status_map` dict in `_parse_inputs`. -/
def filing_status_map : List (String × FilingStatus) :=
  [("single", FilingStatus.single),
   ("married_filing_jointly", FilingStatus.married_filing_jointly),
   ("married_filing_separately", FilingStatus.married_filing_separately),
   ("head_of_household", FilingStatus.head_of_household),
   ("qualifying_widow", FilingStatus.qualifying_widow)]

/-- main.py lines 277-280:
`filing_status_map.get(data.get("filing_status", "single").lower(), FilingStatus.SINGLE)`. -/
def parse_filing_status (raw_filing_status : Option String) : FilingStatus :=
  match filing_status_map.lookup (py_lower (raw_filing_status.getD "single")) with
  | some fs => fs
  | none => FilingStatus.single

/-- C5 counterexample: an unrecognized filing-status string is NOT
rejected; `_parse_inputs` silently substitutes the default status
`single` and the run proceeds. -/
theorem c5_counterexample_unrecognized_status_accepted :
    filing_status_map.lookup (py_lower "martian") = none ∧
    parse_filing_status (some "martian") = FilingStatus.single :=
  ⟨rfl, rfl⟩

/-- C5 (amended): for every filing-status string whose lower-cased form
is not a key of the five-entry map, `_parse_inputs` silently substitutes
`FilingStatus.SINGLE` (no validation failure occurs; parsing is total). -/
theorem c5_parse_inputs_silently_defaults (raw : String)
    (h : filing_status_map.lookup (py_lower raw) = none) :
    parse_filing_status (some raw) = FilingStatus.single := by
  unfold parse_filing_status
  simp only [Option.getD_some]
  rw [h]

/-- Witness for the amended C5 at the concrete string "martian". -/
theorem c5_parse_inputs_silently_defaults_witness :
    parse_filing_status (some "martian") = FilingStatus.single :=
  c5_parse_inputs_silently_defaults "martian" rfl

/-! ## Schedule C (src/agents/schedule_c_agent.py) -/

/-- src/core/types.py `BusinessIncome` (monetary fields; pydantic
defaults are 0 / empty dict).  The name strings do not affect any
computation and are omitted. -/
structure BusinessIncome where
  gross_receipts : ℚ := 0
  returns_allowances : ℚ := 0
  cost_of_goods_sold : ℚ := 0
  other_income : ℚ := 0
  advertising : ℚ := 0
  car_truck_expenses : ℚ := 0
  commissions_fees : ℚ := 0
  contract_labor : ℚ := 0
  depreciation : ℚ := 0
  insurance : ℚ := 0
  interest : ℚ := 0
  legal_professional : ℚ := 0
  office_expense : ℚ := 0
  rent_lease : ℚ := 0
  repairs_maintenance : ℚ := 0
  supplies : ℚ := 0
  taxes_licenses : ℚ := 0
  travel : ℚ := 0
  meals : ℚ := 0
  utilities : ℚ := 0
  wages : ℚ := 0
  other_expenses : List (String × ℚ) := []

structure ScheduleCOutputs where
  gross_income : ℚ
  total_expenses : ℚ
  net_profit_loss : ℚ

/-- `ScheduleCAgent.process`: gross income (Line 7), the Part II expense
sum with the 50% meals haircut (Line 28), net profit or loss (Line 31). -/
def scheduleC_process (business : BusinessIncome) : ScheduleCOutputs :=
  { gross_income := business.gross_receipts - business.returns_allowances -
      business.cost_of_goods_sold + business.other_income
    total_expenses := business.advertising + business.car_truck_expenses +
      business.commissions_fees + business.contract_labor + business.depreciation +
      business.insurance + business.interest + business.legal_professional +
      business.office_expense + business.rent_lease + business.repairs_maintenance +
      business.supplies + business.taxes_licenses + business.travel +
      business.meals * 0.5 + business.utilities + business.wages +
      (business.other_expenses.map Prod.snd).sum
    net_profit_loss := (business.gross_receipts - business.returns_allowances -
      business.cost_of_goods_sold + business.other_income) -
      (business.advertising + business.car_truck_expenses +
      business.commissions_fees + business.contract_labor + business.depreciation +
      business.insurance + business.interest + business.legal_professional +
      business.office_expense + business.rent_lease + business.repairs_maintenance +
      business.supplies + business.taxes_licenses + business.travel +
      business.meals * 0.5 + business.utilities + business.wages +
      (business.other_expenses.map Prod.snd).sum) }

/-- Scenario C of the specification: gross receipts 80000, expenses
20000 of which 1000 are meals (19000 in other listed categories). -/
def scenarioC_business : BusinessIncome :=
  { gross_receipts := 80000, advertising := 19000, meals := 1000 }

/-- C7: total expenses are the sum of the listed expense categories plus
exactly half the meals amount plus the sum of the miscellaneous expense
mapping; net profit or loss is gross income (receipts - returns - COGS +
other income) minus total expenses; Scenario C yields expenses 19500 and
net profit 60500. -/
theorem c7_schedule_c_meals_haircut (business : BusinessIncome) :
    (scheduleC_process business).gross_income =
      business.gross_receipts - business.returns_allowances -
        business.cost_of_goods_sold + business.other_income ∧
    (scheduleC_process business).total_expenses =
      (business.advertising + business.car_truck_expenses +
        business.commissions_fees + business.contract_labor +
        business.depreciation + business.insurance + business.interest +
        business.legal_professional + business.office_expense +
        business.rent_lease + business.repairs_maintenance +
        business.supplies + business.taxes_licenses + business.travel +
        business.utilities + business.wages) + business.meals / 2 +
        (business.other_expenses.map Prod.snd).sum ∧
    (scheduleC_process business).net_profit_loss =
      (scheduleC_process business).gross_income -
        (scheduleC_process business).total_expenses ∧
    (scheduleC_process scenarioC_business).gross_income = 80000 ∧
    (scheduleC_process scenarioC_business).total_expenses = 19500 ∧
    (scheduleC_process scenarioC_business).net_profit_loss = 60500 := by
  refine ⟨rfl, ?_, rfl, ?_, ?_, ?_⟩
  · simp only [scheduleC_process]
    ring
  · norm_num [scheduleC_process, scenarioC_business]
  · norm_num [scheduleC_process, scenarioC_business]
  · norm_num [scheduleC_process, scenarioC_business]

/-! ## Schedule SE (src/agents/schedule_se_agent.py) -/

def SE_TAX_RATE : ℚ := 0.9235
def SOCIAL_SECURITY_RATE : ℚ := 0.124
def MEDICARE_RATE : ℚ := 0.029
def SOCIAL_SECURITY_WAGE_BASE_2024 : ℚ := 168600

structure ScheduleSEOutputs where
  net_earnings : ℚ
  self_employment_tax : ℚ
  deduction : ℚ
deriving DecidableEq

/-- Lines 4-12 of `ScheduleSEAgent.process` for net profit above the
threshold: `ss_tax + medicare_tax` before rounding. -/
def seTaxRaw (net_profit : ℚ) : ℚ :=
  min (net_profit * SE_TAX_RATE) SOCIAL_SECURITY_WAGE_BASE_2024 * SOCIAL_SECURITY_RATE +
    net_profit * SE_TAX_RATE * MEDICARE_RATE

/-- `ScheduleSEAgent.process`: zero outputs at or below 400; otherwise
`net_earnings = net_profit * 0.9235`, tax rounded to the cent, and
`deduction = self_employment_tax / 2` (the UNROUNDED tax halved, then
rounded). -/
def scheduleSE_process (net_profit : ℚ) : ScheduleSEOutputs :=
  if net_profit ≤ 400 then ⟨0, 0, 0⟩
  else
    ⟨net_profit * SE_TAX_RATE, round2 (seTaxRaw net_profit),
      round2 (seTaxRaw net_profit / 2)⟩

/-- C6 counterexample: at net profit `12562000/31399 ≈ 400.0837` the
unrounded tax is exactly 56.529, so the tax output is 56.53 but the
deduction output is `round2 28.2645 = 28.26`, which is NOT half of the
rounded tax (28.265). -/
theorem c6_counterexample_deduction_not_half_of_tax :
    (400 : ℚ) < 12562000/31399 ∧
    (scheduleSE_process (12562000/31399)).self_employment_tax = 5653/100 ∧
    (scheduleSE_process (12562000/31399)).deduction = 2826/100 ∧
    (scheduleSE_process (12562000/31399)).deduction ≠
      (scheduleSE_process (12562000/31399)).self_employment_tax / 2 := by
  have hmin : min ((12562000/31399 : ℚ) * SE_TAX_RATE) SOCIAL_SECURITY_WAGE_BASE_2024 =
      (12562000/31399 : ℚ) * SE_TAX_RATE := by
    rw [min_eq_left]
    norm_num [SE_TAX_RATE, SOCIAL_SECURITY_WAGE_BASE_2024]
  have hraw : seTaxRaw (12562000/31399) = 56529/1000 := by
    unfold seTaxRaw
    rw [hmin]
    norm_num [SE_TAX_RATE, SOCIAL_SECURITY_RATE, MEDICARE_RATE]
  have hproc : scheduleSE_process (12562000/31399) =
      ⟨(12562000/31399 : ℚ) * SE_TAX_RATE, round2 (56529/1000), round2 (56529/1000 / 2)⟩ := by
    unfold scheduleSE_process
    rw [if_neg (by norm_num), hraw]
  have htax : round2 ((56529 : ℚ)/1000) = 5653/100 := by
    rw [round2_eq_of (56529/1000) 5653 (by norm_num) (by norm_num)]
    norm_num
  have hded : round2 ((56529 : ℚ)/1000 / 2) = 2826/100 := by
    rw [round2_eq_of (56529/1000/2) 2826 (by norm_num) (by norm_num)]
    norm_num
  refine ⟨by norm_num, ?_, ?_, ?_⟩
  · rw [hproc]
    exact htax
  · rw [hproc]
    exact hded
  · rw [hproc]
    show round2 (56529/1000/2) ≠ round2 (56529/1000) / 2
    rw [htax, hded]
    norm_num

/-- C6 (amended): for net profit at or below 400 (inclusive) all three
outputs are 0 (the 0.9235 multiplication is skipped); for net profit
above 400, the tax output is the rounded `seTaxRaw` and is strictly
positive, and the deduction output is the UNROUNDED tax divided by two
and then rounded to the cent, `round2 (seTaxRaw p / 2)` (which can
differ from half of the rounded tax by half a cent). -/
theorem c6_schedule_se_threshold (p : ℚ) :
    (p ≤ 400 → scheduleSE_process p = ⟨0, 0, 0⟩) ∧
    (400 < p →
      (scheduleSE_process p).net_earnings = p * SE_TAX_RATE ∧
      (scheduleSE_process p).self_employment_tax = round2 (seTaxRaw p) ∧
      0 < (scheduleSE_process p).self_employment_tax ∧
      (scheduleSE_process p).deduction = round2 (seTaxRaw p / 2)) := by
  constructor
  · intro h
    unfold scheduleSE_process
    rw [if_pos h]
  · intro h
    have hproc : scheduleSE_process p =
        ⟨p * SE_TAX_RATE, round2 (seTaxRaw p), round2 (seTaxRaw p / 2)⟩ := by
      unfold scheduleSE_process
      rw [if_neg (not_le.mpr h)]
    refine ⟨by rw [hproc], by rw [hproc], ?_, by rw [hproc]⟩
    rw [hproc]
    show 0 < round2 (seTaxRaw p)
    have h45 : (45 : ℚ) ≤ seTaxRaw p := by
      unfold seTaxRaw
      rcases min_cases (p * SE_TAX_RATE) SOCIAL_SECURITY_WAGE_BASE_2024 with
        ⟨heq, hle⟩ | ⟨heq, hlt⟩ <;> rw [heq] <;>
        norm_num [SE_TAX_RATE, SOCIAL_SECURITY_RATE, MEDICARE_RATE,
          SOCIAL_SECURITY_WAGE_BASE_2024] <;> nlinarith
    have h2 : round2 45 ≤ round2 (seTaxRaw p) := round2_mono h45
    have h3 : round2 45 = 45 := by
      rw [round2_eq_of 45 4500 (by norm_num) (by norm_num)]
      norm_num
    linarith

/-- Witness for C6 at concrete net profits 300 (threshold branch) and
450 (positive-tax branch). -/
theorem c6_schedule_se_threshold_witness :
    scheduleSE_process 300 = ⟨0, 0, 0⟩ ∧
    0 < (scheduleSE_process 450).self_employment_tax :=
  ⟨(c6_schedule_se_threshold 300).1 (by norm_num),
    ((c6_schedule_se_threshold 450).2 (by norm_num)).2.2.1⟩

/-! ## Form 1040 (src/agents/form_1040_agent.py and main.py) -/

/-- src/core/types.py `TaxpayerInfo`, numeric fields only (names/SSN do
not affect any computation).  NOTE: the model has NO `w2` attribute,
which is what makes the agent's `hasattr(inputs.taxpayer, 'w2')` check
in `_calculate_payments` always false. -/
structure TaxpayerInfo where
  age : Option ℤ := none
  blind : Bool := false
  spouse_age : Option ℤ := none
  spouse_blind : Bool := false

/-- src/core/types.py `Dependent` (only the qualifying-child flag is
used numerically). -/
structure Dependent where
  qualifying_child : Bool := false

/-- src/core/types.py `Form1040Inputs`.  There is no withholding field. -/
structure Form1040Inputs where
  filing_status : FilingStatus
  taxpayer : TaxpayerInfo
  dependents : List Dependent := []
  wages : ℚ := 0
  interest : ℚ := 0
  dividends : ℚ := 0
  schedule_1_additional_income : ℚ := 0
  schedule_1_adjustments : ℚ := 0

/-- src/core/types.py `Form1040Outputs` (all lines default to 0). -/
structure Form1040Outputs where
  line_1z : ℚ := 0
  line_2b : ℚ := 0
  line_3b : ℚ := 0
  line_8 : ℚ := 0
  line_9 : ℚ := 0
  line_10 : ℚ := 0
  line_11 : ℚ := 0
  line_12 : ℚ := 0
  line_15 : ℚ := 0
  line_16 : ℚ := 0
  line_19 : ℚ := 0
  line_22 : ℚ := 0
  line_23 : ℚ := 0
  line_24 : ℚ := 0
  line_25a : ℚ := 0
  line_33 : ℚ := 0
  line_34 : ℚ := 0
  line_37 : ℚ := 0

/-- The refund-or-owed branch, shared by `_calculate_refund_or_owed`
(form_1040_agent.py lines 291-314) and the orchestrator's recompute
(main.py lines 200-206): if payments exceed total tax set Line 34,
otherwise set Line 37. -/
def refund_or_owed (o : Form1040Outputs) : Form1040Outputs :=
  if o.line_24 < o.line_33 then
    { o with line_34 := o.line_33 - o.line_24, line_37 := 0 }
  else
    { o with line_34 := 0, line_37 := o.line_24 - o.line_33 }

/-- `_calculate_taxable_income`: Line 15 = max(0, Line 11 - Line 12),
with Line 11 = (wages + interest + dividends + additional income) -
adjustments. -/
def form1040_line15 (i : Form1040Inputs) (line_12 : ℚ) : ℚ :=
  max 0 (i.wages + i.interest + i.dividends + i.schedule_1_additional_income -
    i.schedule_1_adjustments - line_12)

/-- `_calculate_credits`: Line 19 = min(2000 * qualifying children,
Line 16), only entered when there is at least one qualifying child. -/
def form1040_line19 (i : Form1040Inputs) (line_16 : ℚ) : ℚ :=
  if 0 < (i.dependents.filter fun d => d.qualifying_child).length then
    min (((i.dependents.filter fun d => d.qualifying_child).length : ℚ) * 2000) line_16
  else 0

/-- The output record `Form1040Agent.process` builds once Line 12 and
Line 16 are known, before the final refund-or-owed step: income lines,
Line 24 = 16 - 19 + 23 with Line 23 left at 0 (`_calculate_other_taxes`
is `pass`), Line 25a = 0 (the `hasattr(inputs.taxpayer, 'w2')` check
fails, so the withholding sum is 0), Line 33 = Line 25a. -/
def form1040_base (i : Form1040Inputs) (line_12 line_16 : ℚ) : Form1040Outputs :=
  { line_1z := i.wages
    line_2b := i.interest
    line_3b := i.dividends
    line_8 := i.schedule_1_additional_income
    line_9 := i.wages + i.interest + i.dividends + i.schedule_1_additional_income
    line_10 := i.schedule_1_adjustments
    line_11 := i.wages + i.interest + i.dividends + i.schedule_1_additional_income -
      i.schedule_1_adjustments
    line_12 := line_12
    line_15 := form1040_line15 i line_12
    line_16 := line_16
    line_19 := form1040_line19 i line_16
    line_23 := 0
    line_24 := line_16 - form1040_line19 i line_16 + 0
    line_25a := 0
    line_33 := 0 }

/-- `Form1040Agent.process`.  `none` models the `ValueError` paths of
the two table lookups (impossible for enum statuses). -/
def form1040_process (i : Form1040Inputs) : Option Form1040Outputs :=
  (get_standard_deduction i.filing_status.value i.taxpayer.age i.taxpayer.blind
      i.taxpayer.spouse_age i.taxpayer.spouse_blind).bind fun line_12 =>
    (calculate_tax (form1040_line15 i line_12) i.filing_status.value).map fun line_16 =>
      refund_or_owed (form1040_base i line_12 line_16)

/-- The standard deduction the agent gets for its inputs. -/
def stdDedOf (i : Form1040Inputs) : ℚ :=
  stdDedAmount (baseDeductionOf i.filing_status) (additionalDeductionOf i.filing_status)
    (spouseEligible i.filing_status) i.taxpayer.age i.taxpayer.blind
    i.taxpayer.spouse_age i.taxpayer.spouse_blind

theorem form1040_process_shape (i : Form1040Inputs) (o : Form1040Outputs)
    (h : form1040_process i = some o) :
    ∃ t, calculate_tax (form1040_line15 i (stdDedOf i)) i.filing_status.value = some t ∧
      o = refund_or_owed (form1040_base i (stdDedOf i) t) := by
  unfold form1040_process at h
  rw [get_standard_deduction_value, Option.some_bind] at h
  obtain ⟨t, hct, hfill⟩ := Option.map_eq_some'.mp h
  exact ⟨t, hct, hfill.symm⟩

/-- main.py lines 191-206: if a self-employment tax was computed, patch
Line 23 and recompute Line 24 = Line 16 - Line 19 + Line 23; then
overwrite Lines 25a/33 with the W-2 withholding total and recompute the
Line 34/37 pair. -/
def orchestrator_patch (o : Form1040Outputs) (se_tax total_withholding : ℚ) :
    Form1040Outputs :=
  refund_or_owed
    { (if 0 < se_tax then
        { o with line_23 := se_tax, line_24 := o.line_16 - o.line_19 + se_tax }
      else o) with
      line_25a := total_withholding, line_33 := total_withholding }

/-- The Main Return invariant of the specification. -/
def returnInvariant (o : Form1040Outputs) : Prop :=
  o.line_34 * o.line_37 = 0 ∧
  o.line_34 - o.line_37 = o.line_33 - o.line_24 ∧
  (o.line_33 = o.line_24 → o.line_34 = 0 ∧ o.line_37 = 0)

theorem refund_or_owed_invariant (o : Form1040Outputs) :
    returnInvariant (refund_or_owed o) := by
  unfold refund_or_owed returnInvariant
  by_cases hb : o.line_24 < o.line_33
  · rw [if_pos hb]
    refine ⟨by dsimp only; ring, by dsimp only; ring, fun h => ?_⟩
    exfalso
    dsimp only at h
    rw [h] at hb
    exact lt_irrefl _ hb
  · rw [if_neg hb]
    refine ⟨by dsimp only; ring, by dsimp only; ring, fun h => ?_⟩
    dsimp only at h ⊢
    exact ⟨rfl, by rw [h]; ring⟩

theorem refund_or_owed_line24 (o : Form1040Outputs) :
    (refund_or_owed o).line_24 = o.line_24 := by
  unfold refund_or_owed
  split <;> rfl

theorem refund_or_owed_line25a (o : Form1040Outputs) :
    (refund_or_owed o).line_25a = o.line_25a := by
  unfold refund_or_owed
  split <;> rfl

theorem refund_or_owed_line33 (o : Form1040Outputs) :
    (refund_or_owed o).line_33 = o.line_33 := by
  unfold refund_or_owed
  split <;> rfl

theorem refund_or_owed_of_not_lt (o : Form1040Outputs) (h : ¬ o.line_24 < o.line_33) :
    (refund_or_owed o).line_34 = 0 ∧ (refund_or_owed o).line_37 = o.line_24 - o.line_33 := by
  unfold refund_or_owed
  rw [if_neg h]
  exact ⟨rfl, rfl⟩

/-- C2: every output of `Form1040Agent.process`, and every output after
the orchestrator's post-hoc patch of self-employment tax and
withholding, satisfies refund * amountOwed = 0 and refund - amountOwed
= totalPayments - totalTax; at break-even both are 0. -/
theorem c2_refund_owed_invariant (i : Form1040Inputs) (o : Form1040Outputs)
    (h : form1040_process i = some o) :
    returnInvariant o ∧
    ∀ se_tax total_withholding,
      returnInvariant (orchestrator_patch o se_tax total_withholding) := by
  obtain ⟨t, hct, rfl⟩ := form1040_process_shape i o h
  exact ⟨refund_or_owed_invariant _, fun se wh => refund_or_owed_invariant _⟩

theorem form1040_line19_le (i : Form1040Inputs) (t : ℚ) (ht : 0 ≤ t) :
    form1040_line19 i t ≤ t := by
  unfold form1040_line19
  split
  · exact min_le_right _ _
  · exact ht

/-- C10: `Form1040Agent.process` on its own always returns Line 25a = 0
and Line 33 = 0 (the inputs carry no withholding and `TaxpayerInfo` has
no `w2` attribute), hence Line 34 = 0 and Line 37 = Line 24; the W-2
withholding total reaches the output only through the orchestrator's
direct assignment to Lines 25a/33 (and its recomputation of 34/37). -/
theorem c10_withholding_only_via_patch (i : Form1040Inputs) (o : Form1040Outputs)
    (h : form1040_process i = some o) :
    o.line_25a = 0 ∧ o.line_33 = 0 ∧ o.line_34 = 0 ∧ o.line_37 = o.line_24 ∧
    ∀ se_tax total_withholding,
      (orchestrator_patch o se_tax total_withholding).line_25a = total_withholding ∧
      (orchestrator_patch o se_tax total_withholding).line_33 = total_withholding := by
  obtain ⟨t, hct, rfl⟩ := form1040_process_shape i o h
  have ht : 0 ≤ t := calculate_tax_nonneg hct
  have hbase24 : (form1040_base i (stdDedOf i) t).line_24 = t - form1040_line19 i t + 0 := rfl
  have hbase33 : (form1040_base i (stdDedOf i) t).line_33 = 0 := rfl
  have hnot : ¬ (form1040_base i (stdDedOf i) t).line_24 <
      (form1040_base i (stdDedOf i) t).line_33 := by
    rw [hbase24, hbase33]
    have := form1040_line19_le i t ht
    intro hcontra
    linarith
  obtain ⟨h34, h37⟩ := refund_or_owed_of_not_lt _ hnot
  refine ⟨?_, ?_, h34, ?_, ?_⟩
  · rw [refund_or_owed_line25a]
    rfl
  · rw [refund_or_owed_line33, hbase33]
  · rw [h37, refund_or_owed_line24, hbase24, hbase33]
    ring
  · intro se wh
    exact ⟨by rw [orchestrator_patch, refund_or_owed_line25a], by rw [orchestrator_patch, refund_or_owed_line33]⟩

/-- Scenario A of the specification: single filer, wages 50000. -/
def scenarioA_inputs : Form1040Inputs :=
  { filing_status := FilingStatus.single, taxpayer := {}, wages := 50000 }

/-- The output record the pipeline produces for Scenario A before the
orchestrator patch: deduction 14600, taxable income 35400, tax 4016. -/
def scenarioA_outputs : Form1040Outputs :=
  { line_1z := 50000, line_9 := 50000, line_11 := 50000, line_12 := 14600,
    line_15 := 35400, line_16 := 4016, line_24 := 4016, line_37 := 4016 }

/-- Concrete evaluation: tax on 35400 for a single filer. -/
theorem calculate_tax_single_35400 :
    calculate_tax 35400 (FilingStatus.value FilingStatus.single) = some 4016 := by
  rw [calculate_tax_pos 35400 FilingStatus.single (by norm_num)]
  have h1 : taxValue 35400 (bracketsOf FilingStatus.single) = 4016 := by
    norm_num [taxValue, bracketsOf, singleBrackets, findBracket, inBracket]
  rw [h1, round2_eq_of 4016 401600 (by norm_num) (by norm_num)]
  norm_num

theorem scenarioA_process_eval :
    form1040_process scenarioA_inputs = some scenarioA_outputs := by
  have h1 : stdDedOf scenarioA_inputs = 14600 := by
    norm_num [stdDedOf, scenarioA_inputs, stdDedAmount, age_ge_65,
      baseDeductionOf, additionalDeductionOf, spouseEligible]
  have h1a : stdDedAmount (baseDeductionOf scenarioA_inputs.filing_status)
      (additionalDeductionOf scenarioA_inputs.filing_status)
      (spouseEligible scenarioA_inputs.filing_status)
      scenarioA_inputs.taxpayer.age scenarioA_inputs.taxpayer.blind
      scenarioA_inputs.taxpayer.spouse_age scenarioA_inputs.taxpayer.spouse_blind = 14600 := h1
  have h2 : form1040_line15 scenarioA_inputs 14600 = 35400 := by
    norm_num [form1040_line15, scenarioA_inputs]
  unfold form1040_process
  rw [get_standard_deduction_value, Option.some_bind, h1a, h2]
  show (calculate_tax 35400 (FilingStatus.value FilingStatus.single)).map _ = _
  rw [calculate_tax_single_35400, Option.map_some']
  norm_num [refund_or_owed, form1040_base, form1040_line15, form1040_line19,
    scenarioA_inputs, scenarioA_outputs]

/-- Witness for C2: the invariant on the concrete Scenario A output. -/
theorem c2_refund_owed_invariant_witness :
    form1040_process scenarioA_inputs = some scenarioA_outputs ∧
    returnInvariant scenarioA_outputs :=
  ⟨scenarioA_process_eval,
    (c2_refund_owed_invariant scenarioA_inputs scenarioA_outputs scenarioA_process_eval).1⟩

/-- Witness for C10 on the concrete Scenario A output. -/
theorem c10_withholding_only_via_patch_witness :
    scenarioA_outputs.line_33 = 0 ∧ scenarioA_outputs.line_37 = scenarioA_outputs.line_24 := by
  have h := c10_withholding_only_via_patch scenarioA_inputs scenarioA_outputs scenarioA_process_eval
  exact ⟨h.2.1, h.2.2.2.1⟩

end LightTaxes
